import Mathlib

/-!
Shallow embedding of the quiz-tracking backend in `api/index.py`
(FastAPI + SQL store).  Pure request handlers are modelled as Lean
functions from the relevant stores and the request's cookie token to a
`Result` (the JSON body on success, or the raised `HTTPException`);
handlers that write to the database also return the updated store.

Modelling conventions:
- bcrypt (`hash_password` / `check_password`) is idealised as an
  injective salted digest: the hash is represented by the pair
  (salt, plaintext) and `checkpw` succeeds exactly on the original
  plaintext (no collisions).
- the HS256 JWT signature is idealised as an unforgeable MAC: the
  signature of a payload is represented by the record
  (signing key, signed claims, signed expiry); verification compares
  the carried signature with the one recomputed from the verifying key
  and the carried payload, exactly as `jwt.decode` does.
- time is a natural number of seconds since the epoch; `timedelta(days=7)`
  is 604800 seconds, and PyJWT treats a token as expired iff
  `exp < now` at verification time.
- SQL `avg` followed by Python `float(round(·, 2))` is modelled exactly
  in fixed point: `average_score_x100` is the average scaled by 100 and
  rounded to the nearest integer, ties to even (Python's `round` on the
  `Decimal` returned for a SQL numeric uses banker's rounding).
- SQL `ORDER BY` is modelled by a stable insertion sort on the query's
  key; `GROUP BY username` groups rows by first occurrence.
-/

/-- An idealised bcrypt digest: salt plus the hashed plaintext.
Injective by construction, so `checkpw` succeeds exactly on a match. -/
structure PasswordHash where
  salt : Nat
  plaintext : String
deriving DecidableEq, Repr

/-- `bcrypt.hashpw(password, bcrypt.gensalt())` (the fresh salt is passed
explicitly). -/
def hash_password (password : String) (salt : Nat) : PasswordHash :=
  ⟨salt, password⟩

/-- `bcrypt.checkpw(password, hashed_password)`. -/
def check_password (password : String) (hashed_password : PasswordHash) : Bool :=
  password == hashed_password.plaintext

/-- The claim set placed in a JWT by the backend: `{"username": ..., "role": ...}`. -/
structure Claims where
  username : String
  role : String
deriving DecidableEq, Repr

/-- An idealised HS256 signature: the signing key together with the signed
payload (claims and expiry).  Two signatures are equal iff key and payload
agree, modelling an unforgeable, collision-free MAC. -/
structure Sig where
  key : String
  claims : Claims
  exp : Nat
deriving DecidableEq, Repr

/-- An encoded JWT: the (readable) payload plus its signature. -/
structure Token where
  claims : Claims
  exp : Nat
  sig : Sig
deriving DecidableEq, Repr

/-- `SECRET_KEY = os.environ.get("SECRET_KEY", ...)` with the in-source default. -/
def SECRET_KEY : String := "super-secret-key-jangan-dipakai-di-prod"

/-- Seconds in `timedelta(days=7)`. -/
def SEVEN_DAYS : Nat := 7 * 24 * 60 * 60

/-- `create_jwt_token(data)`: copy the claims, set `exp = utcnow() + 7 days`,
sign with the secret key (HS256). -/
def create_jwt_token (secret : String) (data : Claims) (now : Nat) : Token :=
  let expire := now + SEVEN_DAYS
  { claims := data, exp := expire, sig := ⟨secret, data, expire⟩ }

/-- `decode_jwt_token(token)`: verify the signature against the secret key,
then the expiry; return the payload on success and `None` on
`ExpiredSignatureError` or `InvalidTokenError`. -/
def decode_jwt_token (secret : String) (token : Token) (now : Nat) : Option Claims :=
  if token.sig = ⟨secret, token.claims, token.exp⟩ then
    if token.exp < now then none else some token.claims
  else none

/-- A row of the `users` table. -/
structure UserRow where
  id : Nat
  username : String
  password : PasswordHash
  role : String
deriving DecidableEq, Repr

/-- A row of the `scores` table. -/
structure ScoreRow where
  id : Nat
  username : String
  quiz_name : String
  score : Int
  timestamp : Nat
deriving DecidableEq, Repr

/-- The `users` table. -/
abbrev UserStore := List UserRow

/-- The `scores` table. -/
abbrev ScoreStore := List ScoreRow

/-- A raised `HTTPException(status_code, detail)`. -/
structure HTTPError where
  status_code : Nat
  detail : String
deriving DecidableEq, Repr

/-- Outcome of a request handler: the JSON body, or the raised exception. -/
inductive Result (α : Type) where
  | ok : α → Result α
  | error : HTTPError → Result α
deriving DecidableEq, Repr

/-- Insert into a list sorted descending by `key`, after any element of
equal key (stable). -/
def insertDescBy (key : α → Int) (u : α) : List α → List α
  | [] => [u]
  | v :: vs => if key u ≤ key v then v :: insertDescBy key u vs else u :: v :: vs

/-- Stable sort, descending by `key`: SQL `ORDER BY key DESC`. -/
def sortDescBy (key : α → Int) (l : List α) : List α :=
  l.foldl (fun acc u => insertDescBy key u acc) []

/-- Insert into a list of user rows sorted ascending by username (stable). -/
def insertAscByName (u : UserRow) : List UserRow → List UserRow
  | [] => [u]
  | v :: vs => if v.username ≤ u.username then v :: insertAscByName u vs else u :: v :: vs

/-- Stable sort of user rows: SQL `ORDER BY username`. -/
def sortAscByName (l : List UserRow) : List UserRow :=
  l.foldl (fun acc u => insertAscByName u acc) []

/-- `SELECT * FROM users WHERE username = :username` (username is unique),
as consumed by `scalar_one_or_none`. -/
def find_user (db : UserStore) (username : String) : Option UserRow :=
  db.find? (fun u => u.username == username)

/-- `POST /api/signup`: reject a taken username with 400, else insert a new
`murid` user with the hashed password.  The handler returns only a message
and sets no cookie, so the response carries no session credential. -/
structure SignupResponse where
  message : String
  set_cookie_token : Option Token
deriving DecidableEq, Repr

def signup (db : UserStore) (username password : String) (salt next_id : Nat) :
    Result SignupResponse × UserStore :=
  match find_user db username with
  | some _ => (.error ⟨400, "Username sudah terdaftar"⟩, db)
  | none =>
      let hashed_password := hash_password password salt
      (.ok ⟨"Akun baru berhasil dibuat", none⟩,
       db ++ [⟨next_id, username, hashed_password, "murid"⟩])

/-- Successful `POST /api/login` body plus the `token` cookie set on the
response. -/
structure LoginResponse where
  message : String
  username : String
  role : String
  set_cookie_token : Token
deriving DecidableEq, Repr

/-- `POST /api/login`: look the user up by username; unknown user or a
password mismatch both raise 400 with the same detail; on success issue a
JWT for `{username, role}` and set it as the `token` cookie. -/
def login (db : UserStore) (username password : String) (now : Nat) :
    Result LoginResponse :=
  match find_user db username with
  | none => .error ⟨400, "Nama pengguna atau kata sandi salah"⟩
  | some user =>
      if check_password password user.password then
        .ok ⟨"Selamat datang kembali", user.username, user.role,
             create_jwt_token SECRET_KEY ⟨user.username, user.role⟩ now⟩
      else .error ⟨400, "Nama pengguna atau kata sandi salah"⟩

/-- One element of the `scores` array in profile / murid_scores responses. -/
structure ScoreView where
  quiz_name : String
  score : Int
  timestamp : Nat
deriving DecidableEq, Repr

/-- Successful `GET /api/profile` body. -/
structure ProfileResponse where
  username : String
  role : String
  scores : List ScoreView
deriving DecidableEq, Repr

/-- `GET /api/profile`: 401 without a cookie token, 401 on an invalid or
expired token, 404 when the token's username has no `users` row; otherwise
the profile plus the caller's scores, newest first. -/
def get_profile (udb : UserStore) (sdb : ScoreStore) (cookie_token : Option Token)
    (now : Nat) : Result ProfileResponse :=
  match cookie_token with
  | none => .error ⟨401, "Tidak terautentikasi"⟩
  | some token =>
      match decode_jwt_token SECRET_KEY token now with
      | none => .error ⟨401, "Token tidak valid atau kedaluwarsa"⟩
      | some payload =>
          match find_user udb payload.username with
          | none => .error ⟨404, "Pengguna tidak ditemukan"⟩
          | some user_profile =>
              let rows := sortDescBy (fun r => (r.timestamp : Int))
                (sdb.filter (fun r => r.username == payload.username))
              .ok ⟨user_profile.username, user_profile.role,
                   rows.map (fun r => ⟨r.quiz_name, r.score, r.timestamp⟩)⟩

/-- `POST /api/submit_quiz`: 401 without a cookie token, 401 on an invalid
or expired token; otherwise unconditionally `INSERT` a new scores row with
the token's username and the client-supplied quiz name and score. -/
def submit_quiz (sdb : ScoreStore) (cookie_token : Option Token)
    (quiz_name : String) (score : Int) (now next_id ts : Nat) :
    Result String × ScoreStore :=
  match cookie_token with
  | none => (.error ⟨401, "Tidak terautentikasi"⟩, sdb)
  | some token =>
      match decode_jwt_token SECRET_KEY token now with
      | none => (.error ⟨401, "Token tidak valid atau kedaluwarsa"⟩, sdb)
      | some payload =>
          (.ok "Skor kuis berhasil disimpan",
           sdb ++ [⟨next_id, payload.username, quiz_name, score, ts⟩])

/-- One element of the `murid` array returned by `GET /api/murid`. -/
structure MuridView where
  username : String
  role : String
deriving DecidableEq, Repr

/-- `GET /api/murid` (teacher only): 401 without a cookie token, 401 on an
invalid or expired token, 403 when the token's role is not `guru`;
otherwise all `murid` users ordered by username. -/
def get_murid (udb : UserStore) (cookie_token : Option Token) (now : Nat) :
    Result (List MuridView) :=
  match cookie_token with
  | none => .error ⟨401, "Tidak terautentikasi"⟩
  | some token =>
      match decode_jwt_token SECRET_KEY token now with
      | none => .error ⟨401, "Token tidak valid atau kedaluwarsa"⟩
      | some payload =>
          if payload.role ≠ "guru" then .error ⟨403, "Akses ditolak"⟩
          else
            .ok ((sortAscByName (udb.filter (fun u => u.role == "murid"))).map
              (fun u => ⟨u.username, u.role⟩))

/-- `GET /api/murid_scores?username=...` (teacher only): same guards as
`GET /api/murid`, then the named student's scores, newest first. -/
def murid_scores (sdb : ScoreStore) (cookie_token : Option Token)
    (username : String) (now : Nat) : Result (List ScoreView) :=
  match cookie_token with
  | none => .error ⟨401, "Tidak terautentikasi"⟩
  | some token =>
      match decode_jwt_token SECRET_KEY token now with
      | none => .error ⟨401, "Token tidak valid atau kedaluwarsa"⟩
      | some payload =>
          if payload.role ≠ "guru" then .error ⟨403, "Akses ditolak"⟩
          else
            .ok ((sortDescBy (fun r => (r.timestamp : Int))
                (sdb.filter (fun r => r.username == username))).map
              (fun r => ⟨r.quiz_name, r.score, r.timestamp⟩))

/-- Number of scores rows for a given (user, quiz) pair. -/
def count_scores (sdb : ScoreStore) (username quiz_name : String) : Nat :=
  (sdb.filter (fun r => r.username == username && r.quiz_name == quiz_name)).length

/-- All score values of a user, in row order. -/
def user_scores (sdb : ScoreStore) (username : String) : List Int :=
  (sdb.filter (fun r => r.username == username)).map (fun r => r.score)

/-- SQL `sum(score)` for a user's group. -/
def total_score (sdb : ScoreStore) (username : String) : Int :=
  (user_scores sdb username).sum

/-- SQL `count(id)` for a user's group. -/
def quiz_count (sdb : ScoreStore) (username : String) : Nat :=
  (user_scores sdb username).length

/-- Round `num / d` (with `d > 0`) to the nearest integer, ties to even:
the rounding Python's `round` applies to the `Decimal` average. -/
def round_half_even_div (num d : Int) : Int :=
  let q := Int.fdiv num d
  let r := num - d * q
  if 2 * r < d then q
  else if d < 2 * r then q + 1
  else if q % 2 = 0 then q else q + 1

/-- `float(round(avg(score), 2))`, in fixed point: the average scaled by
100 and rounded half-to-even. -/
def average_score_x100 (sdb : ScoreStore) (username : String) : Int :=
  round_half_even_div (100 * total_score sdb username) (quiz_count sdb username)

/-- The distinct usernames of the scores table in first-occurrence order:
SQL `GROUP BY username`.  Exactly the users owning at least one row. -/
def distinct_usernames (sdb : ScoreStore) : List String :=
  sdb.foldl (fun acc r => if r.username ∈ acc then acc else acc ++ [r.username]) []

/-- One element of the `GET /api/leaderboard` response; `average_score_x100`
is the reported `average_score` float scaled by 100. -/
structure LeaderboardEntry where
  rank : Nat
  username : String
  total_score : Int
  average_score_x100 : Int
  quiz_count : Nat
deriving DecidableEq, Repr

/-- `GET /api/leaderboard`: group scores by username, aggregate
sum/avg/count, order by total descending, truncate to 10, and rank by
1-based position. -/
def leaderboard (sdb : ScoreStore) : List LeaderboardEntry :=
  let grouped := distinct_usernames sdb
  let sorted := sortDescBy (fun u => total_score sdb u) grouped
  let top := sorted.take 10
  top.enum.map (fun p =>
    { rank := p.1 + 1
      username := p.2
      total_score := total_score sdb p.2
      average_score_x100 := average_score_x100 sdb p.2
      quiz_count := quiz_count sdb p.2 })

/-! Helper lemmas about the sort and grouping used by the leaderboard. -/

theorem mem_insertDescBy {key : α → Int} {u x : α} {l : List α} :
    x ∈ insertDescBy key u l ↔ x = u ∨ x ∈ l := by
  induction l with
  | nil => simp [insertDescBy]
  | cons v vs ih =>
      by_cases h : key u ≤ key v
      · simp [insertDescBy, h, ih]
        tauto
      · simp [insertDescBy, h]

theorem length_insertDescBy (key : α → Int) (u : α) (l : List α) :
    (insertDescBy key u l).length = l.length + 1 := by
  induction l with
  | nil => simp [insertDescBy]
  | cons v vs ih =>
      by_cases h : key u ≤ key v
      · simp [insertDescBy, h, ih]
      · simp [insertDescBy, h]

theorem pairwise_insertDescBy {key : α → Int} {u : α} {l : List α}
    (hl : List.Pairwise (fun a b => key b ≤ key a) l) :
    List.Pairwise (fun a b => key b ≤ key a) (insertDescBy key u l) := by
  induction l with
  | nil => simp [insertDescBy]
  | cons v vs ih =>
      rw [List.pairwise_cons] at hl
      obtain ⟨hv, hvs⟩ := hl
      by_cases h : key u ≤ key v
      · rw [insertDescBy, if_pos h, List.pairwise_cons]
        refine ⟨?_, ih hvs⟩
        intro x hx
        rcases mem_insertDescBy.mp hx with rfl | hx
        · exact h
        · exact hv x hx
      · rw [insertDescBy, if_neg h, List.pairwise_cons]
        push_neg at h
        refine ⟨?_, List.pairwise_cons.mpr ⟨hv, hvs⟩⟩
        intro x hx
        rcases List.mem_cons.mp hx with rfl | hx
        · exact le_of_lt h
        · exact le_trans (hv x hx) (le_of_lt h)

theorem foldl_insertDescBy_mem (key : α → Int) (l acc : List α) (x : α) :
    x ∈ l.foldl (fun acc u => insertDescBy key u acc) acc ↔ x ∈ acc ∨ x ∈ l := by
  induction l generalizing acc with
  | nil => simp
  | cons v vs ih =>
      rw [List.foldl_cons, ih, mem_insertDescBy]
      simp
      tauto

theorem foldl_insertDescBy_length (key : α → Int) (l acc : List α) :
    (l.foldl (fun acc u => insertDescBy key u acc) acc).length = acc.length + l.length := by
  induction l generalizing acc with
  | nil => simp
  | cons v vs ih =>
      rw [List.foldl_cons, ih, length_insertDescBy]
      simp only [List.length_cons]
      omega

theorem foldl_insertDescBy_pairwise (key : α → Int) (l acc : List α)
    (h : List.Pairwise (fun a b => key b ≤ key a) acc) :
    List.Pairwise (fun a b => key b ≤ key a)
      (l.foldl (fun acc u => insertDescBy key u acc) acc) := by
  induction l generalizing acc with
  | nil => exact h
  | cons v vs ih => exact ih _ (pairwise_insertDescBy h)

theorem mem_sortDescBy {key : α → Int} {l : List α} {x : α} :
    x ∈ sortDescBy key l ↔ x ∈ l := by
  rw [sortDescBy, foldl_insertDescBy_mem]
  simp

theorem length_sortDescBy (key : α → Int) (l : List α) :
    (sortDescBy key l).length = l.length := by
  rw [sortDescBy, foldl_insertDescBy_length]
  simp

theorem pairwise_sortDescBy (key : α → Int) (l : List α) :
    List.Pairwise (fun a b => key b ≤ key a) (sortDescBy key l) :=
  foldl_insertDescBy_pairwise key l [] (by simp)

theorem foldl_distinct_mem (l : ScoreStore) (acc : List String) (u : String) :
    u ∈ l.foldl (fun acc r => if r.username ∈ acc then acc else acc ++ [r.username]) acc ↔
      u ∈ acc ∨ ∃ r ∈ l, r.username = u := by
  induction l generalizing acc with
  | nil => simp
  | cons v vs ih =>
      rw [List.foldl_cons, ih]
      by_cases hv : v.username ∈ acc
      · rw [if_pos hv]
        simp only [List.mem_cons]
        constructor
        · rintro (h | ⟨r, hr, hu⟩)
          · exact Or.inl h
          · exact Or.inr ⟨r, Or.inr hr, hu⟩
        · rintro (h | ⟨r, hr | hr, hu⟩)
          · exact Or.inl h
          · subst hr
            subst hu
            exact Or.inl hv
          · exact Or.inr ⟨r, hr, hu⟩
      · rw [if_neg hv]
        simp only [List.mem_append, List.mem_cons, List.not_mem_nil, or_false]
        constructor
        · rintro ((h | h) | ⟨r, hr, hu⟩)
          · exact Or.inl h
          · exact Or.inr ⟨v, Or.inl rfl, h.symm⟩
          · exact Or.inr ⟨r, Or.inr hr, hu⟩
        · rintro (h | ⟨r, hr | hr, hu⟩)
          · exact Or.inl (Or.inl h)
          · subst hr
            exact Or.inl (Or.inr hu.symm)
          · exact Or.inr ⟨r, hr, hu⟩

theorem foldl_distinct_nodup (l : ScoreStore) (acc : List String) (h : acc.Nodup) :
    (l.foldl (fun acc r => if r.username ∈ acc then acc else acc ++ [r.username]) acc).Nodup := by
  induction l generalizing acc with
  | nil => exact h
  | cons v vs ih =>
      rw [List.foldl_cons]
      by_cases hv : v.username ∈ acc
      · rw [if_pos hv]
        exact ih _ h
      · rw [if_neg hv]
        refine ih _ ?_
        simp [List.nodup_append, h, hv]

theorem mem_distinct_usernames {sdb : ScoreStore} {u : String} :
    u ∈ distinct_usernames sdb ↔ ∃ r ∈ sdb, r.username = u := by
  rw [distinct_usernames, foldl_distinct_mem]
  simp

theorem nodup_distinct_usernames (sdb : ScoreStore) : (distinct_usernames sdb).Nodup :=
  foldl_distinct_nodup sdb [] (by simp)

/-- Requests that raise an `HTTPException` expose its status code;
successful requests have no error status. -/
def error_status : Result α → Option Nat
  | .ok _ => none
  | .error e => some e.status_code

/-- Repeated `POST /api/submit_quiz` calls by the same caller for the same
quiz: each list element is one submission's (score, fresh row id, row
timestamp). -/
def run_submissions (sdb : ScoreStore) (cookie_token : Option Token)
    (quiz_name : String) (now : Nat) : List (Int × Nat × Nat) → ScoreStore
  | [] => sdb
  | (s, nid, ts) :: rest =>
      run_submissions (submit_quiz sdb cookie_token quiz_name s now nid ts).2
        cookie_token quiz_name now rest

theorem count_scores_append (a b : ScoreStore) (u q : String) :
    count_scores (a ++ b) u q = count_scores a u q + count_scores b u q := by
  simp [count_scores, List.filter_append]

theorem leaderboard_entry_fields {sdb : ScoreStore} {e : LeaderboardEntry}
    (he : e ∈ leaderboard sdb) :
    e.total_score = total_score sdb e.username ∧
    e.average_score_x100 = average_score_x100 sdb e.username ∧
    e.quiz_count = quiz_count sdb e.username := by
  rw [leaderboard, List.mem_map] at he
  obtain ⟨p, _, rfl⟩ := he
  exact ⟨rfl, rfl, rfl⟩

theorem leaderboard_length (sdb : ScoreStore) :
    (leaderboard sdb).length = min 10 (distinct_usernames sdb).length := by
  rw [leaderboard]
  simp [List.enum_length, List.length_take, length_sortDescBy]

theorem leaderboard_sorted (sdb : ScoreStore) :
    List.Pairwise (fun a b : LeaderboardEntry => b.total_score ≤ a.total_score)
      (leaderboard sdb) := by
  have htop : List.Pairwise (fun a b => total_score sdb b ≤ total_score sdb a)
      ((sortDescBy (fun u => total_score sdb u) (distinct_usernames sdb)).take 10) :=
    List.Pairwise.sublist (List.take_sublist _ _)
      (pairwise_sortDescBy (fun u => total_score sdb u) (distinct_usernames sdb))
  rw [← List.enum_map_snd
    ((sortDescBy (fun u => total_score sdb u) (distinct_usernames sdb)).take 10)] at htop
  have henum := List.pairwise_map.mp htop
  rw [leaderboard]
  exact List.pairwise_map.mpr henum

theorem leaderboard_rank (sdb : ScoreStore) (i : Nat)
    (h : i < (leaderboard sdb).length) :
    ((leaderboard sdb).get ⟨i, h⟩).rank = i + 1 := by
  simp only [List.get_eq_getElem, leaderboard, List.getElem_map, List.getElem_enum]

theorem leaderboard_user_has_row {sdb : ScoreStore} {e : LeaderboardEntry}
    (he : e ∈ leaderboard sdb) : ∃ r ∈ sdb, r.username = e.username := by
  rw [leaderboard, List.mem_map] at he
  obtain ⟨p, hp, rfl⟩ := he
  have hsnd : p.2 ∈ (sortDescBy (fun u => total_score sdb u)
      (distinct_usernames sdb)).take 10 := by
    have := List.mem_map_of_mem Prod.snd hp
    rwa [List.enum_map_snd] at this
  have hmem : p.2 ∈ distinct_usernames sdb :=
    mem_sortDescBy.mp (List.mem_of_mem_take hsnd)
  exact mem_distinct_usernames.mp hmem

/-! Concrete fixtures used to instantiate the theorems. -/

/-- A student token issued at time 0 with the process secret. -/
def budi_token : Token := create_jwt_token SECRET_KEY ⟨"budi", "murid"⟩ 0

/-- A demo `users` table (no user named `budi`). -/
def demo_users : UserStore :=
  [⟨1, "a", hash_password "sandi" 7, "murid"⟩,
   ⟨2, "andi", hash_password "rahasia" 3, "murid"⟩]

/-- C2: on both teacher-only endpoints (`GET /api/murid` and
`GET /api/murid_scores`), a request with no cookie token or with a token
`decode_jwt_token` rejects fails with 401 (never 403), and a request with a
valid token whose role is not `guru` fails with 403: the authenticate check
is decided before the role check. -/
theorem teacher_endpoints_auth_before_role (udb : UserStore) (sdb : ScoreStore)
    (uname : String) (now : Nat) :
    (get_murid udb none now = .error ⟨401, "Tidak terautentikasi"⟩ ∧
     murid_scores sdb none uname now = .error ⟨401, "Tidak terautentikasi"⟩) ∧
    (∀ t : Token, decode_jwt_token SECRET_KEY t now = none →
      get_murid udb (some t) now = .error ⟨401, "Token tidak valid atau kedaluwarsa"⟩ ∧
      murid_scores sdb (some t) uname now =
        .error ⟨401, "Token tidak valid atau kedaluwarsa"⟩) ∧
    (∀ t : Token, ∀ p : Claims, decode_jwt_token SECRET_KEY t now = some p →
      p.role ≠ "guru" →
      get_murid udb (some t) now = .error ⟨403, "Akses ditolak"⟩ ∧
      murid_scores sdb (some t) uname now = .error ⟨403, "Akses ditolak"⟩) := by
  refine ⟨⟨rfl, rfl⟩, ?_, ?_⟩
  · intro t ht
    constructor
    · simp [get_murid, ht]
    · simp [murid_scores, ht]
  · intro t p ht hp
    constructor
    · simp [get_murid, ht, hp]
    · simp [murid_scores, ht, hp]

/-- Witness for C2 at concrete inputs: no token, an expired token, and a
valid student token. -/
theorem teacher_endpoints_auth_before_role_witness :
    (get_murid demo_users none 0 = .error ⟨401, "Tidak terautentikasi"⟩ ∧
     murid_scores [] none "budi" 0 = .error ⟨401, "Tidak terautentikasi"⟩) ∧
    get_murid demo_users (some budi_token) 700000 =
      .error ⟨401, "Token tidak valid atau kedaluwarsa"⟩ ∧
    get_murid demo_users (some budi_token) 0 = .error ⟨403, "Akses ditolak"⟩ :=
  ⟨(teacher_endpoints_auth_before_role demo_users [] "budi" 0).1,
   ((teacher_endpoints_auth_before_role demo_users [] "budi" 700000).2.1
      budi_token (by decide)).1,
   ((teacher_endpoints_auth_before_role demo_users [] "budi" 0).2.2
      budi_token ⟨"budi", "murid"⟩ (by decide) (by decide)).1⟩

/-- C4: a token issued by `create_jwt_token` is accepted by
`decode_jwt_token` (returning its claims) whenever verified within the
7-day window, rejected once the window has elapsed, rejected whenever its
signature does not match its payload under the verifying key (tampering),
and rejected when signed with a different key. -/
theorem jwt_round_trip_and_rejection (secret : String) (data : Claims) (now t : Nat) :
    (t ≤ now + SEVEN_DAYS →
      decode_jwt_token secret (create_jwt_token secret data now) t = some data) ∧
    (now + SEVEN_DAYS < t →
      decode_jwt_token secret (create_jwt_token secret data now) t = none) ∧
    (∀ tok : Token, tok.sig ≠ ⟨secret, tok.claims, tok.exp⟩ →
      decode_jwt_token secret tok t = none) ∧
    (∀ secret2 : String, ∀ data2 : Claims, ∀ now2 : Nat, secret2 ≠ secret →
      decode_jwt_token secret (create_jwt_token secret2 data2 now2) t = none) := by
  have hcreate : decode_jwt_token secret (create_jwt_token secret data now) t =
      if now + SEVEN_DAYS < t then none else some data := by
    rw [create_jwt_token, decode_jwt_token]
    simp
  refine ⟨?_, ?_, ?_, ?_⟩
  · intro h
    have hlt : ¬ (now + SEVEN_DAYS < t) := by omega
    rw [hcreate, if_neg hlt]
  · intro h
    rw [hcreate, if_pos h]
  · intro tok htok
    rw [decode_jwt_token, if_neg htok]
  · intro secret2 data2 now2 hne
    rw [create_jwt_token, decode_jwt_token, if_neg]
    simp only [Sig.mk.injEq, not_and]
    intro hc
    exact absurd hc hne

/-- Witness for C4: round trip at the expiry boundary, rejection one second
past expiry, rejection of a role-tampered token, rejection of a token
signed with another key. -/
theorem jwt_round_trip_and_rejection_witness :
    decode_jwt_token SECRET_KEY (create_jwt_token SECRET_KEY ⟨"budi", "murid"⟩ 0) 604800 =
      some ⟨"budi", "murid"⟩ ∧
    decode_jwt_token SECRET_KEY (create_jwt_token SECRET_KEY ⟨"budi", "murid"⟩ 0) 604801 =
      none ∧
    decode_jwt_token SECRET_KEY
      { claims := ⟨"budi", "guru"⟩, exp := 604800,
        sig := ⟨SECRET_KEY, ⟨"budi", "murid"⟩, 604800⟩ } 0 = none ∧
    decode_jwt_token SECRET_KEY (create_jwt_token "kunci-lain" ⟨"budi", "murid"⟩ 0) 0 =
      none :=
  ⟨(jwt_round_trip_and_rejection SECRET_KEY ⟨"budi", "murid"⟩ 0 604800).1 (by decide),
   (jwt_round_trip_and_rejection SECRET_KEY ⟨"budi", "murid"⟩ 0 604801).2.1 (by decide),
   (jwt_round_trip_and_rejection SECRET_KEY ⟨"budi", "murid"⟩ 0 0).2.2.1 _ (by decide),
   (jwt_round_trip_and_rejection SECRET_KEY ⟨"budi", "murid"⟩ 0 0).2.2.2
     "kunci-lain" ⟨"budi", "murid"⟩ 0 (by decide)⟩

/-- C7: a login attempt with an unknown username and a login attempt with a
known username but wrong password produce identical responses (same status
code 400 and same body), so the response does not reveal whether the
username exists. -/
theorem login_enumeration_resistant (db : UserStore) (u1 p1 u2 p2 : String)
    (now1 now2 : Nat) (user2 : UserRow)
    (h1 : find_user db u1 = none)
    (h2 : find_user db u2 = some user2)
    (h3 : check_password p2 user2.password = false) :
    login db u1 p1 now1 = login db u2 p2 now2 ∧
    login db u1 p1 now1 = .error ⟨400, "Nama pengguna atau kata sandi salah"⟩ := by
  simp [login, h1, h2, h3]

/-- Witness for C7: unknown user `tidakada` vs existing user `andi` with a
wrong password. -/
theorem login_enumeration_resistant_witness :
    login demo_users "tidakada" "apapun" 11 = login demo_users "andi" "salah" 22 ∧
    login demo_users "tidakada" "apapun" 11 =
      .error ⟨400, "Nama pengguna atau kata sandi salah"⟩ :=
  login_enumeration_resistant demo_users "tidakada" "apapun" "andi" "salah" 11 22
    ⟨2, "andi", hash_password "rahasia" 3, "murid"⟩ (by decide) (by decide) (by decide)

/-- C10: a profile request with a valid, unexpired, correctly signed token
whose username has no `users` row fails with 404 (not 401), and the result
does not depend on the scores table at all. -/
theorem get_profile_stale_token (udb : UserStore) (sdb sdb2 : ScoreStore)
    (tok : Token) (p : Claims) (now : Nat)
    (hdec : decode_jwt_token SECRET_KEY tok now = some p)
    (hnouser : find_user udb p.username = none) :
    get_profile udb sdb (some tok) now = .error ⟨404, "Pengguna tidak ditemukan"⟩ ∧
    get_profile udb sdb (some tok) now = get_profile udb sdb2 (some tok) now := by
  constructor
  · simp [get_profile, hdec, hnouser]
  · simp [get_profile, hdec, hnouser]

/-- Witness for C10: `budi_token` is valid but `budi` is not in the users
table; the 404 is identical whether budi has score rows or not. -/
theorem get_profile_stale_token_witness :
    get_profile demo_users [⟨1, "budi", "Kuis A", 10, 5⟩] (some budi_token) 0 =
      .error ⟨404, "Pengguna tidak ditemukan"⟩ ∧
    get_profile demo_users [⟨1, "budi", "Kuis A", 10, 5⟩] (some budi_token) 0 =
      get_profile demo_users [] (some budi_token) 0 :=
  get_profile_stale_token demo_users [⟨1, "budi", "Kuis A", 10, 5⟩] [] budi_token
    ⟨"budi", "murid"⟩ 0 (by decide) (by decide)

theorem count_scores_insert (sdb : ScoreStore) (u q : String) (nid : Nat) (s : Int)
    (ts : Nat) :
    count_scores (sdb ++ [⟨nid, u, q, s, ts⟩]) u q = count_scores sdb u q + 1 := by
  rw [count_scores_append]
  simp [count_scores]

theorem count_scores_run_submissions (tok : Token) (p : Claims) (q : String) (now : Nat)
    (hdec : decode_jwt_token SECRET_KEY tok now = some p) :
    ∀ subs : List (Int × Nat × Nat), ∀ sdb : ScoreStore,
      count_scores (run_submissions sdb (some tok) q now subs) p.username q =
        count_scores sdb p.username q + subs.length := by
  intro subs
  induction subs with
  | nil =>
      intro sdb
      simp [run_submissions]
  | cons sub rest ih =>
      intro sdb
      obtain ⟨s, nid, ts⟩ := sub
      rw [run_submissions, ih]
      have hsub : (submit_quiz sdb (some tok) q s now nid ts).2 =
          sdb ++ [⟨nid, p.username, q, s, ts⟩] := by
        simp [submit_quiz, hdec]
      rw [hsub, count_scores_insert]
      simp only [List.length_cons]
      omega

/-- C1 counterexample: the same authenticated user submits the same quiz
twice; the handler does a plain `INSERT` both times, so the store ends with
two rows for (budi, Kuis A), not exactly one upserted row. -/
theorem submit_quiz_duplicate_rows_counterexample :
    (submit_quiz (submit_quiz [] (some budi_token) "Kuis A" 80 0 1 100).2
        (some budi_token) "Kuis A" 90 0 2 200).2 =
      [⟨1, "budi", "Kuis A", 80, 100⟩, ⟨2, "budi", "Kuis A", 90, 200⟩] ∧
    count_scores
      (submit_quiz (submit_quiz [] (some budi_token) "Kuis A" 80 0 1 100).2
        (some budi_token) "Kuis A" 90 0 2 200).2 "budi" "Kuis A" ≠ 1 := by
  decide

/-- C1 (amended): `submit_quiz` is append-only: every authenticated
submission appends one fresh row, leaving all existing rows untouched, so a
sequence of n submissions for the same (user, quiz) pair adds n rows for
that pair (the last one carrying the most recent score) instead of keeping
a single updated row. -/
theorem submit_quiz_append_only (sdb : ScoreStore) (tok : Token) (p : Claims)
    (q : String) (s : Int) (now nid ts : Nat)
    (hdec : decode_jwt_token SECRET_KEY tok now = some p) :
    (submit_quiz sdb (some tok) q s now nid ts).2 =
      sdb ++ [⟨nid, p.username, q, s, ts⟩] ∧
    (submit_quiz sdb (some tok) q s now nid ts).1 = .ok "Skor kuis berhasil disimpan" ∧
    count_scores (submit_quiz sdb (some tok) q s now nid ts).2 p.username q =
      count_scores sdb p.username q + 1 ∧
    (∀ subs : List (Int × Nat × Nat),
      count_scores (run_submissions sdb (some tok) q now subs) p.username q =
        count_scores sdb p.username q + subs.length) := by
  have happ : (submit_quiz sdb (some tok) q s now nid ts).2 =
      sdb ++ [⟨nid, p.username, q, s, ts⟩] := by
    simp [submit_quiz, hdec]
  refine ⟨happ, ?_, ?_, ?_⟩
  · simp [submit_quiz, hdec]
  · rw [happ, count_scores_insert]
  · intro subs
    exact count_scores_run_submissions tok p q now hdec subs sdb

/-- Witness for the amended C1 at concrete inputs, including a two-element
submission sequence that adds two rows. -/
theorem submit_quiz_append_only_witness :
    (submit_quiz [⟨1, "budi", "Kuis A", 80, 100⟩] (some budi_token) "Kuis A" 90 0 2 200).2 =
      [⟨1, "budi", "Kuis A", 80, 100⟩] ++ [⟨2, "budi", "Kuis A", 90, 200⟩] ∧
    (submit_quiz [⟨1, "budi", "Kuis A", 80, 100⟩] (some budi_token) "Kuis A" 90 0 2 200).1 =
      .ok "Skor kuis berhasil disimpan" ∧
    count_scores
      (submit_quiz [⟨1, "budi", "Kuis A", 80, 100⟩] (some budi_token) "Kuis A" 90 0 2 200).2
      "budi" "Kuis A" =
      count_scores [⟨1, "budi", "Kuis A", 80, 100⟩] "budi" "Kuis A" + 1 ∧
    count_scores
      (run_submissions [] (some budi_token) "Kuis A" 0 [(80, 1, 100), (90, 2, 200)])
      "budi" "Kuis A" = count_scores [] "budi" "Kuis A" + 2 := by
  have h := submit_quiz_append_only [⟨1, "budi", "Kuis A", 80, 100⟩] budi_token
    ⟨"budi", "murid"⟩ "Kuis A" 90 0 2 200 (by decide)
  have h0 := submit_quiz_append_only [] budi_token
    ⟨"budi", "murid"⟩ "Kuis A" 90 0 2 200 (by decide)
  exact ⟨h.1, h.2.1, h.2.2.1, h0.2.2.2 [(80, 1, 100), (90, 2, 200)]⟩

/-- C3 counterexample: login with an unknown username fails with status
400, not 401; and login with the one-character username `a` (trimmed
length < 2) and its correct password succeeds instead of failing with 400,
so there is no username-length validation. -/
theorem login_status_counterexample :
    error_status (login demo_users "tidakada" "apapun" 0) = some 400 ∧
    error_status (login demo_users "tidakada" "apapun" 0) ≠ some 401 ∧
    login demo_users "a" "sandi" 0 =
      .ok ⟨"Selamat datang kembali", "a", "murid",
           create_jwt_token SECRET_KEY ⟨"a", "murid"⟩ 0⟩ := by
  decide

/-- C3 (amended): login fails with status 400 — not 401 — and an identical
body both when the username is unknown and when the password mismatches;
there is no username-length validation: whenever the stored hash matches
the supplied password, login succeeds regardless of the username's
length. -/
theorem login_failure_modes (db : UserStore) (username password : String) (now : Nat) :
    (find_user db username = none →
      login db username password now =
        .error ⟨400, "Nama pengguna atau kata sandi salah"⟩) ∧
    (∀ user : UserRow, find_user db username = some user →
      check_password password user.password = false →
      login db username password now =
        .error ⟨400, "Nama pengguna atau kata sandi salah"⟩) ∧
    (∀ user : UserRow, find_user db username = some user →
      check_password password user.password = true →
      login db username password now =
        .ok ⟨"Selamat datang kembali", user.username, user.role,
             create_jwt_token SECRET_KEY ⟨user.username, user.role⟩ now⟩) := by
  refine ⟨?_, ?_, ?_⟩
  · intro h
    simp [login, h]
  · intro user hu hc
    simp [login, hu, hc]
  · intro user hu hc
    simp [login, hu, hc]

/-- Witness for the amended C3: unknown user, wrong password, and a
successful login under the one-character username `a`. -/
theorem login_failure_modes_witness :
    login demo_users "tidakada" "pw" 0 =
      .error ⟨400, "Nama pengguna atau kata sandi salah"⟩ ∧
    login demo_users "andi" "salah" 0 =
      .error ⟨400, "Nama pengguna atau kata sandi salah"⟩ ∧
    login demo_users "a" "sandi" 3 =
      .ok ⟨"Selamat datang kembali", "a", "murid",
           create_jwt_token SECRET_KEY ⟨"a", "murid"⟩ 3⟩ :=
  ⟨(login_failure_modes demo_users "tidakada" "pw" 0).1 (by decide),
   (login_failure_modes demo_users "andi" "salah" 0).2.1
     ⟨2, "andi", hash_password "rahasia" 3, "murid"⟩ (by decide) (by decide),
   (login_failure_modes demo_users "a" "sandi" 3).2.2
     ⟨1, "a", hash_password "sandi" 7, "murid"⟩ (by decide) (by decide)⟩

/-- Two users tied at total_score 50. -/
def tie_scores : ScoreStore :=
  [⟨1, "a", "Kuis A", 50, 10⟩, ⟨2, "b", "Kuis A", 50, 20⟩]

/-- C5 counterexample: with two users tied on total_score the leaderboard
is sorted descending but not strictly: adjacent entries carry equal
totals. -/
theorem leaderboard_not_strictly_sorted_counterexample :
    (leaderboard tie_scores).map (fun e => e.total_score) = [50, 50] ∧
    ¬ List.Chain' (fun a b : Int => b < a)
        ((leaderboard tie_scores).map (fun e => e.total_score)) := by
  constructor
  · decide
  · intro hchain
    rw [(by decide :
      (leaderboard tie_scores).map (fun e => e.total_score) = [50, 50])] at hchain
    simp [List.chain'_cons] at hchain

/-- C5 (amended): the leaderboard has min(10, number of users owning at
least one score row) entries, is sorted in non-increasing (descending with
ties allowed — not strictly descending) order of total_score, each entry's
rank is its 1-based position, and only users owning a score row appear. -/
theorem leaderboard_shape (sdb : ScoreStore) :
    (leaderboard sdb).length = min 10 (distinct_usernames sdb).length ∧
    (distinct_usernames sdb).Nodup ∧
    (∀ u : String, u ∈ distinct_usernames sdb ↔ ∃ r ∈ sdb, r.username = u) ∧
    List.Chain' (fun a b : LeaderboardEntry => b.total_score ≤ a.total_score)
      (leaderboard sdb) ∧
    (∀ i : Nat, ∀ h : i < (leaderboard sdb).length,
      ((leaderboard sdb).get ⟨i, h⟩).rank = i + 1) ∧
    (∀ e ∈ leaderboard sdb, ∃ r ∈ sdb, r.username = e.username) :=
  ⟨leaderboard_length sdb, nodup_distinct_usernames sdb,
   fun _ => mem_distinct_usernames,
   (leaderboard_sorted sdb).chain',
   leaderboard_rank sdb,
   fun _ he => leaderboard_user_has_row he⟩

/-- Witness for the amended C5 on the tied two-user store. -/
theorem leaderboard_shape_witness :
    (leaderboard tie_scores).length = min 10 (distinct_usernames tie_scores).length ∧
    ("a" ∈ distinct_usernames tie_scores ↔ ∃ r ∈ tie_scores, r.username = "a") ∧
    List.Chain' (fun a b : LeaderboardEntry => b.total_score ≤ a.total_score)
      (leaderboard tie_scores) ∧
    ((leaderboard tie_scores).get ⟨0, by decide⟩).rank = 0 + 1 ∧
    (∃ r ∈ tie_scores, r.username =
      (⟨1, "a", 50, 5000, 1⟩ : LeaderboardEntry).username) :=
  ⟨(leaderboard_shape tie_scores).1,
   (leaderboard_shape tie_scores).2.2.1 "a",
   (leaderboard_shape tie_scores).2.2.2.1,
   (leaderboard_shape tie_scores).2.2.2.2.1 0 (by decide),
   (leaderboard_shape tie_scores).2.2.2.2.2 ⟨1, "a", 50, 5000, 1⟩ (by decide)⟩

/-- Score rows of a single user with values [100, 0, 50]. -/
def andi_scores : ScoreStore :=
  [⟨1, "andi", "Kuis 1", 100, 1⟩, ⟨2, "andi", "Kuis 2", 0, 2⟩,
   ⟨3, "andi", "Kuis 3", 50, 3⟩]

/-- C6: every leaderboard entry's total_score is the sum of that user's
score rows, quiz_count is their number, and average_score is their mean
rounded to two decimal places (represented exactly, scaled by 100); for a
user with scores [100, 0, 50] this gives total 150, average 50.00 and
count 3. -/
theorem leaderboard_aggregates (sdb : ScoreStore) :
    (∀ e ∈ leaderboard sdb,
      e.total_score =
        ((sdb.filter (fun r => r.username == e.username)).map (fun r => r.score)).sum ∧
      e.quiz_count = (sdb.filter (fun r => r.username == e.username)).length ∧
      e.average_score_x100 =
        round_half_even_div
          (100 * ((sdb.filter (fun r => r.username == e.username)).map
            (fun r => r.score)).sum)
          ((sdb.filter (fun r => r.username == e.username)).length)) ∧
    leaderboard andi_scores = [⟨1, "andi", 150, 5000, 3⟩] := by
  constructor
  · intro e he
    obtain ⟨h1, h2, h3⟩ := leaderboard_entry_fields he
    refine ⟨?_, ?_, ?_⟩
    · rw [h1]
      simp [total_score, user_scores]
    · rw [h3]
      simp [quiz_count, user_scores]
    · rw [h2]
      simp [average_score_x100, total_score, quiz_count, user_scores]
  · decide

/-- Witness for C6 at the entry produced by the [100, 0, 50] store. -/
theorem leaderboard_aggregates_witness :
    (⟨1, "andi", 150, 5000, 3⟩ : LeaderboardEntry).total_score =
      ((andi_scores.filter (fun r => r.username == "andi")).map
        (fun r => r.score)).sum ∧
    (⟨1, "andi", 150, 5000, 3⟩ : LeaderboardEntry).quiz_count =
      (andi_scores.filter (fun r => r.username == "andi")).length ∧
    (⟨1, "andi", 150, 5000, 3⟩ : LeaderboardEntry).average_score_x100 =
      round_half_even_div
        (100 * ((andi_scores.filter (fun r => r.username == "andi")).map
          (fun r => r.score)).sum)
        ((andi_scores.filter (fun r => r.username == "andi")).length) :=
  (leaderboard_aggregates andi_scores).1 ⟨1, "andi", 150, 5000, 3⟩ (by decide)

/-- C8 counterexample: an authenticated submission for an unknown quiz name
with the negative score -5 is accepted (200, not 400) and the
out-of-bounds score is persisted verbatim. -/
theorem submit_quiz_no_validation_counterexample :
    (submit_quiz [] (some budi_token) "Kuis Tak Dikenal" (-5) 0 1 0).1 =
      .ok "Skor kuis berhasil disimpan" ∧
    (submit_quiz [] (some budi_token) "Kuis Tak Dikenal" (-5) 0 1 0).2 =
      [⟨1, "budi", "Kuis Tak Dikenal", -5, 0⟩] := by
  decide

/-- C8 (amended): `submit_quiz` validates nothing beyond authentication:
any quiz name is accepted and the client-supplied score — negative or
above any quiz maximum — is persisted verbatim; only a missing or invalid
token is rejected, with 401. -/
theorem submit_quiz_no_server_side_validation (sdb : ScoreStore) (tok : Token)
    (p : Claims) (q : String) (s : Int) (now nid ts : Nat)
    (hdec : decode_jwt_token SECRET_KEY tok now = some p) :
    ((submit_quiz sdb (some tok) q s now nid ts).1 =
        .ok "Skor kuis berhasil disimpan" ∧
      (⟨nid, p.username, q, s, ts⟩ : ScoreRow) ∈
        (submit_quiz sdb (some tok) q s now nid ts).2) ∧
    submit_quiz sdb none q s now nid ts = (.error ⟨401, "Tidak terautentikasi"⟩, sdb) := by
  refine ⟨⟨?_, ?_⟩, rfl⟩
  · simp [submit_quiz, hdec]
  · simp [submit_quiz, hdec]

/-- Witness for the amended C8: a score of 1000 (far above any quiz
maximum) is accepted and stored. -/
theorem submit_quiz_no_server_side_validation_witness :
    ((submit_quiz [] (some budi_token) "Kuis X" 1000 0 7 9).1 =
        .ok "Skor kuis berhasil disimpan" ∧
      (⟨7, "budi", "Kuis X", 1000, 9⟩ : ScoreRow) ∈
        (submit_quiz [] (some budi_token) "Kuis X" 1000 0 7 9).2) ∧
    submit_quiz [] none "Kuis X" 1000 0 7 9 =
      (.error ⟨401, "Tidak terautentikasi"⟩, []) :=
  submit_quiz_no_server_side_validation [] budi_token ⟨"budi", "murid"⟩ "Kuis X"
    1000 0 7 9 (by decide)

/-- C9 counterexample: a successful signup returns only a message and sets
no cookie — no session credential — whereas logging in with the
just-created account does set a token cookie. -/
theorem signup_no_credential_counterexample :
    (signup [] "citra" "sandi" 5 1).1 = .ok ⟨"Akun baru berhasil dibuat", none⟩ ∧
    login (signup [] "citra" "sandi" 5 1).2 "citra" "sandi" 0 =
      .ok ⟨"Selamat datang kembali", "citra", "murid",
           create_jwt_token SECRET_KEY ⟨"citra", "murid"⟩ 0⟩ := by
  decide

/-- C9 (amended): a signup with a fresh username creates the user with
role `murid` but returns only a success message and no session credential
(the client must log in separately); a taken username fails with 400 and
leaves the user store unchanged. -/
theorem signup_behavior (db : UserStore) (username password : String) (salt nid : Nat) :
    (find_user db username = none →
      signup db username password salt nid =
        (.ok ⟨"Akun baru berhasil dibuat", none⟩,
         db ++ [⟨nid, username, hash_password password salt, "murid"⟩])) ∧
    (∀ u : UserRow, find_user db username = some u →
      signup db username password salt nid =
        (.error ⟨400, "Username sudah terdaftar"⟩, db)) := by
  constructor
  · intro h
    simp [signup, h]
  · intro u hu
    simp [signup, hu]

/-- Witness for the amended C9: fresh username `citra`, then the taken
username `andi`. -/
theorem signup_behavior_witness :
    signup demo_users "citra" "sandi" 5 3 =
      (.ok ⟨"Akun baru berhasil dibuat", none⟩,
       demo_users ++ [⟨3, "citra", hash_password "sandi" 5, "murid"⟩]) ∧
    signup demo_users "andi" "x" 5 3 =
      (.error ⟨400, "Username sudah terdaftar"⟩, demo_users) :=
  ⟨(signup_behavior demo_users "citra" "sandi" 5 3).1 (by decide),
   (signup_behavior demo_users "andi" "x" 5 3).2
     ⟨2, "andi", hash_password "rahasia" 3, "murid"⟩ (by decide)⟩
